import Mathlib

/-!
Verification of the live event ingestion pipeline of the wallet-tracker
dashboard front-end: the SSE connection manager (`useSSE.ts`), the live-feed
page's dedup/ring-buffer logic (`live/page.tsx`, `addFeedItem`), and the
dashboard page's mini-feed handlers (`handleTransfer`, `handleCoordinated`).

Modelling conventions:
* JavaScript strings are Lean `String`s; an absent/`undefined` string field is
  modelled as `""` (both are falsy in the source's truthiness tests).
* Timestamps/instants are opaque strings, as in the wire format.
* The JavaScript `Set` used for coordinated-trade dedup keys preserves
  insertion order; we model it as a `List String` kept MOST-RECENT-FIRST, so
  that `add` is `cons` and the source's `Array.from(set).slice(-50)` (keep the
  50 most recently inserted) is `List.take 50`.  Membership is unchanged by
  this reversal.
* React state updaters become pure functions on explicit state.
-/

namespace WalletTracker

/-- Transfer side, from `lib/types/transfer` (`side: "BUY" | "SELL"`). -/
inductive Side where
  | BUY
  | SELL
deriving DecidableEq

/-- TransferEvent from `lib/types/transfer`; `signature := ""` models an empty
or absent transaction signature. -/
structure TransferEvent where
  walletAddress : String
  tokenAddress : String
  amount : String
  signature : String
  timestamp : String
  side : Side
deriving DecidableEq

/-- CoordinatedTrade from `lib/types/coordinated`; optional string fields are
modelled as `""` when absent. -/
structure CoordinatedTrade where
  tokenAddress : String
  timestamp : String
  walletCount : Nat
  wallets : List String
  timeWindowSeconds : Nat
  pattern : String
  windowStart : String
  windowEnd : String
  triggeredAt : String
  uniqueWalletCount : Nat
deriving DecidableEq

/-- FeedItem from `live/page.tsx`: a tagged union of the two event kinds. -/
inductive FeedItem where
  | transfer (data : TransferEvent)
  | coordinated (data : CoordinatedTrade)
deriving DecidableEq

/-- Capacity of the combined live feed (`MAX_FEED_ITEMS = 500` in
`live/page.tsx`). -/
def MAX_FEED_ITEMS : Nat := 500

/-- Dedup key for a coordinated trade on the live page:
the template string `tokenAddress-triggeredAt` built in `addFeedItem`. -/
def liveTradeKey (d : CoordinatedTrade) : String :=
  d.tokenAddress ++ "-" ++ d.triggeredAt

/-- The duplicate check for coordinated trades in `addFeedItem`:
`prev.some(i => i.type === "coordinated" && key(i) === tradeKey)`. -/
def isDupCoordinated (prev : List FeedItem) (d : CoordinatedTrade) : Bool :=
  prev.any fun i =>
    match i with
    | FeedItem.coordinated e => liveTradeKey e == liveTradeKey d
    | FeedItem.transfer _ => false

/-- The duplicate check for transfers in `addFeedItem`:
`prev.some(i => i.type === "transfer" && i.data.signature === item.data.signature)`. -/
def isDupTransfer (prev : List FeedItem) (t : TransferEvent) : Bool :=
  prev.any fun i =>
    match i with
    | FeedItem.transfer e => e.signature == t.signature
    | FeedItem.coordinated _ => false

/-- The `setFeedItems` updater inside `addFeedItem` of `live/page.tsx`:
reject a coordinated trade whose key already occurs in the buffer; reject a
transfer with a truthy (non-empty) signature already present on a buffered
transfer; otherwise prepend and trim to `MAX_FEED_ITEMS`
(`[item, ...prev].slice(0, MAX_FEED_ITEMS)`). -/
def addFeedItem (prev : List FeedItem) (item : FeedItem) : List FeedItem :=
  match item with
  | FeedItem.coordinated d =>
      if isDupCoordinated prev d then prev
      else (FeedItem.coordinated d :: prev).take MAX_FEED_ITEMS
  | FeedItem.transfer t =>
      if t.signature ≠ "" ∧ isDupTransfer prev t then prev
      else (FeedItem.transfer t :: prev).take MAX_FEED_ITEMS

/-- Frequency (Hz) requested by `playNotificationSound` in `live/page.tsx`:
880 for a coordinated trade, 440 for a transfer. -/
def playNotificationSound : FeedItem → Nat
  | FeedItem.coordinated _ => 880
  | FeedItem.transfer _ => 440

/-- The whole of `addFeedItem` in `live/page.tsx`: the buffer update plus the
arrival side effect.  The second component is the frequency of the sound cue
requested on this arrival (`none` when sound is disabled); the source plays it
outside the state updater, unconditionally on the dedup outcome ("will play
even for duplicates" per its comment). -/
def addFeedItemWithSound (soundEnabled : Bool) (prev : List FeedItem)
    (item : FeedItem) : List FeedItem × Option Nat :=
  (addFeedItem prev item, if soundEnabled then some (playNotificationSound item) else none)

/-- C5: for every transfer event whose signature is empty or absent, admission
always inserts it at the front of the live-feed buffer (then trims to
capacity), even when an identical event is already buffered: the dedup check
is skipped for signature-less transfers. -/
theorem C5_empty_signature_always_admitted (prev : List FeedItem) (t : TransferEvent)
    (h : t.signature = "") :
    addFeedItem prev (FeedItem.transfer t) =
      (FeedItem.transfer t :: prev).take MAX_FEED_ITEMS := by
  simp only [addFeedItem]
  rw [if_neg]
  intro hc
  exact hc.1 h

/-- C5 witness: a concrete signature-less transfer, with an event identical in
every field already buffered, is admitted again at the front. -/
theorem C5_empty_signature_always_admitted_witness :
    (⟨"w", "k", "1", "", "ts", Side.BUY⟩ : TransferEvent).signature = "" ∧
    addFeedItem [FeedItem.transfer ⟨"w", "k", "1", "", "ts", Side.BUY⟩]
      (FeedItem.transfer ⟨"w", "k", "1", "", "ts", Side.BUY⟩) =
    [FeedItem.transfer ⟨"w", "k", "1", "", "ts", Side.BUY⟩,
     FeedItem.transfer ⟨"w", "k", "1", "", "ts", Side.BUY⟩] :=
  ⟨rfl,
   (C5_empty_signature_always_admitted
     [FeedItem.transfer ⟨"w", "k", "1", "", "ts", Side.BUY⟩]
     ⟨"w", "k", "1", "", "ts", Side.BUY⟩ rfl).trans (by decide)⟩

/-- Capacity of the dashboard transfer mini-feed (`MAX_LIVE_TRANSFERS = 50`). -/
def MAX_LIVE_TRANSFERS : Nat := 50

/-- Capacity of the dashboard coordinated mini-feed (`MAX_LIVE_COORDINATED = 20`). -/
def MAX_LIVE_COORDINATED : Nat := 20

/-- The `setRecentTransfers` updater in the dashboard page's `handleTransfer`:
`[data, ...prev.slice(0, MAX_LIVE_TRANSFERS - 1)]` (no dedup is applied). -/
def handleTransfer (prev : List TransferEvent) (data : TransferEvent) : List TransferEvent :=
  data :: prev.take (MAX_LIVE_TRANSFERS - 1)

/-- Helper: trimming the tail of an append to `n` before taking `n` of the
whole is the same as taking `n` of the untrimmed append. -/
theorem take_append_take {α : Type} (n : Nat) (l₁ l₂ : List α) :
    (l₁ ++ l₂.take n).take n = (l₁ ++ l₂).take n := by
  rw [List.take_append_eq_append_take, List.take_append_eq_append_take, List.take_take]
  have hm : (n - l₁.length) ⊓ n = n - l₁.length := by omega
  rw [hm]

/-- Helper: prepending with `handleTransfer` is prepend-then-trim to capacity. -/
theorem handleTransfer_eq_take (prev : List TransferEvent) (d : TransferEvent) :
    handleTransfer prev d = (d :: prev).take MAX_LIVE_TRANSFERS := by
  rw [handleTransfer, MAX_LIVE_TRANSFERS, List.take_cons (by norm_num)]

/-- Helper: folding an unconditional prepend-and-trim step over a sequence of
events yields the reversed sequence in front of the start buffer, trimmed to
the capacity. -/
theorem foldl_take_step {α : Type} (N : Nat) (es : List α) :
    ∀ acc : List α, acc.length ≤ N →
    es.foldl (fun prev d => (d :: prev).take N) acc = (es.reverse ++ acc).take N := by
  induction es with
  | nil =>
      intro acc h
      simp [List.take_of_length_le h]
  | cons e es ih =>
      intro acc h
      rw [List.foldl_cons, ih ((e :: acc).take N) (by simp [List.length_take])]
      rw [take_append_take]
      simp

/-- Helper: a fresh non-empty-signature transfer (no buffered transfer shares
its signature) is admitted by `addFeedItem` as prepend-then-trim. -/
theorem addFeedItem_transfer_fresh (acc : List FeedItem) (e : TransferEvent)
    (hfresh : ∀ u ∈ acc, ∀ t : TransferEvent, u = FeedItem.transfer t →
      t.signature ≠ e.signature) :
    addFeedItem acc (FeedItem.transfer e) =
      (FeedItem.transfer e :: acc).take MAX_FEED_ITEMS := by
  simp only [addFeedItem]
  rw [if_neg]
  rintro ⟨-, hdup⟩
  rcases List.any_eq_true.1 hdup with ⟨u, hu, hmatch⟩
  cases u with
  | transfer t =>
      exact hfresh _ hu t rfl (by simpa using hmatch)
  | coordinated d => simp at hmatch

/-- Helper: folding `addFeedItem` over transfers with pairwise-distinct
signatures, none of which occurs in the start buffer, behaves like the
unconditional bounded prepend. -/
theorem foldl_addFeedItem_transfers (es : List TransferEvent) :
    ∀ acc : List FeedItem, acc.length ≤ MAX_FEED_ITEMS →
    (es.map TransferEvent.signature).Nodup →
    (∀ e ∈ es, ∀ u ∈ acc, ∀ t : TransferEvent, u = FeedItem.transfer t →
      t.signature ≠ e.signature) →
    es.foldl (fun buf e => addFeedItem buf (FeedItem.transfer e)) acc =
      ((es.map FeedItem.transfer).reverse ++ acc).take MAX_FEED_ITEMS := by
  induction es with
  | nil =>
      intro acc hlen _ _
      simp [List.take_of_length_le hlen]
  | cons e es ih =>
      intro acc hlen hnodup hdisj
      have hmapcons : (e :: es).map TransferEvent.signature
          = e.signature :: es.map TransferEvent.signature := rfl
      rw [hmapcons] at hnodup
      have hnd := List.nodup_cons.1 hnodup
      have hdisj' : ∀ e' ∈ es, ∀ u ∈ (FeedItem.transfer e :: acc).take MAX_FEED_ITEMS,
          ∀ t : TransferEvent, u = FeedItem.transfer t → t.signature ≠ e'.signature := by
        intro e' he' u hu t hut
        rcases List.mem_cons.1 (List.mem_of_mem_take hu) with hmem | hmem
        · subst hut
          have hte : t = e := by injection hmem
          subst hte
          intro hEq
          exact hnd.1 (by rw [hEq]; exact List.mem_map.2 ⟨e', he', rfl⟩)
        · exact hdisj e' (List.mem_cons_of_mem _ he') u hmem t hut
      rw [List.foldl_cons,
        addFeedItem_transfer_fresh acc e (hdisj e (List.mem_cons_self _ _)),
        ih _ (by simp [List.length_take]) hnd.2 hdisj',
        take_append_take]
      simp

/-- C1: admitting a sequence of transfer events with distinct non-empty
signatures into an initially empty buffer leaves the buffer equal to the
reversed (most-recent-first) sequence trimmed to the capacity N — so it holds
exactly `min N count` events, and admitting `N + k` events keeps precisely the
newest `N`, evicting the `k` oldest.  This is proved for the combined live
feed (`addFeedItem`, N = 500) and the dashboard transfer mini-feed
(`handleTransfer`, N = 50). -/
theorem C1_buffers_keep_newest_N (es : List TransferEvent)
    (_hsig : ∀ e ∈ es, e.signature ≠ "")
    (hnodup : (es.map TransferEvent.signature).Nodup) :
    es.foldl (fun buf e => addFeedItem buf (FeedItem.transfer e)) [] =
      (es.reverse.map FeedItem.transfer).take MAX_FEED_ITEMS ∧
    (es.foldl (fun buf e => addFeedItem buf (FeedItem.transfer e)) []).length =
      min MAX_FEED_ITEMS es.length ∧
    es.foldl handleTransfer [] = es.reverse.take MAX_LIVE_TRANSFERS ∧
    (es.foldl handleTransfer []).length = min MAX_LIVE_TRANSFERS es.length := by
  have h1 : es.foldl (fun buf e => addFeedItem buf (FeedItem.transfer e)) [] =
      (es.reverse.map FeedItem.transfer).take MAX_FEED_ITEMS := by
    rw [foldl_addFeedItem_transfers es [] (by simp) hnodup (by simp)]
    rw [List.map_reverse]
    simp
  have h2 : es.foldl handleTransfer [] = es.reverse.take MAX_LIVE_TRANSFERS := by
    rw [List.foldl_ext handleTransfer
      (fun prev d => (d :: prev).take MAX_LIVE_TRANSFERS) []
      (fun a b _ => handleTransfer_eq_take a b)]
    rw [foldl_take_step MAX_LIVE_TRANSFERS es [] (by simp)]
    simp
  refine ⟨h1, ?_, h2, ?_⟩
  · rw [h1]
    simp [List.length_take, Nat.min_def]
  · rw [h2]
    simp [List.length_take, Nat.min_def]

/-- C1 witness: three concrete transfers with distinct signatures land
most-recent-first in both buffers. -/
theorem C1_buffers_keep_newest_N_witness :
    [(⟨"w1", "k", "1", "a", "t1", Side.BUY⟩ : TransferEvent),
     ⟨"w2", "k", "2", "b", "t2", Side.SELL⟩,
     ⟨"w3", "k", "3", "c", "t3", Side.BUY⟩].foldl
      (fun buf e => addFeedItem buf (FeedItem.transfer e)) [] =
      [FeedItem.transfer ⟨"w3", "k", "3", "c", "t3", Side.BUY⟩,
       FeedItem.transfer ⟨"w2", "k", "2", "b", "t2", Side.SELL⟩,
       FeedItem.transfer ⟨"w1", "k", "1", "a", "t1", Side.BUY⟩] ∧
    [(⟨"w1", "k", "1", "a", "t1", Side.BUY⟩ : TransferEvent),
     ⟨"w2", "k", "2", "b", "t2", Side.SELL⟩,
     ⟨"w3", "k", "3", "c", "t3", Side.BUY⟩].foldl handleTransfer [] =
      [⟨"w3", "k", "3", "c", "t3", Side.BUY⟩,
       ⟨"w2", "k", "2", "b", "t2", Side.SELL⟩,
       ⟨"w1", "k", "1", "a", "t1", Side.BUY⟩] := by
  have h := C1_buffers_keep_newest_N
    [⟨"w1", "k", "1", "a", "t1", Side.BUY⟩,
     ⟨"w2", "k", "2", "b", "t2", Side.SELL⟩,
     ⟨"w3", "k", "3", "c", "t3", Side.BUY⟩] (by decide) (by decide)
  exact ⟨h.1.trans (by decide), h.2.2.1.trans (by decide)⟩

/-- C9: with sound enabled, the arrival-triggered sound cue fires on every
event handed to `addFeedItem` — including events rejected as duplicates, where
the buffer is left unchanged but the cue (at the kind-specific pitch) still
fires. -/
theorem C9_sound_fires_even_for_duplicates (soundEnabled : Bool)
    (prev : List FeedItem) (item : FeedItem) (hs : soundEnabled = true) :
    (addFeedItemWithSound soundEnabled prev item).2 =
      some (playNotificationSound item) ∧
    (addFeedItem prev item = prev →
      addFeedItemWithSound soundEnabled prev item =
        (prev, some (playNotificationSound item))) := by
  subst hs
  exact ⟨rfl, fun h => by simp [addFeedItemWithSound, h]⟩

/-- C9 witness: a concrete duplicate coordinated trade leaves the buffer
unchanged yet still triggers the 880 Hz cue. -/
theorem C9_sound_fires_even_for_duplicates_witness :
    addFeedItemWithSound true
      [FeedItem.coordinated ⟨"T", "ts", 2, [], 60, "p", "ws", "we", "tr", 2⟩]
      (FeedItem.coordinated ⟨"T", "ts", 2, [], 60, "p", "ws", "we", "tr", 2⟩) =
      ([FeedItem.coordinated ⟨"T", "ts", 2, [], 60, "p", "ws", "we", "tr", 2⟩],
       some 880) :=
  (C9_sound_fires_even_for_duplicates true
    [FeedItem.coordinated ⟨"T", "ts", 2, [], 60, "p", "ws", "we", "tr", 2⟩]
    (FeedItem.coordinated ⟨"T", "ts", 2, [], 60, "p", "ws", "we", "tr", 2⟩)
    rfl).2 (by decide)

/-- getTradeTimestamp from `lib/types/coordinated`:
`trade.timestamp || trade.triggeredAt || new Date().toISOString()`; the
current instant is passed in as `now`. -/
def getTradeTimestamp (trade : CoordinatedTrade) (now : String) : String :=
  if trade.timestamp ≠ "" then trade.timestamp
  else if trade.triggeredAt ≠ "" then trade.triggeredAt
  else now

/-- Dedup key computed in the dashboard page's `handleCoordinated`:
`tokenAddress-getTradeTimestamp(data)`. -/
def dashTradeKey (trade : CoordinatedTrade) (now : String) : String :=
  trade.tokenAddress ++ "-" ++ getTradeTimestamp trade now

/-- State owned by the dashboard page's coordinated mini-feed: the visible
buffer (`recentCoordinated`) plus the `seenCoordinatedRef` key memory.  The
insertion-ordered `Set<string>` is modelled as a most-recent-first list, so
the source's keep-the-last-50 prune is `List.take 50`. -/
structure DashCoordState where
  recentCoordinated : List CoordinatedTrade
  seenCoordinated : List String
deriving DecidableEq

/-- Initial dashboard state: empty buffer, empty key memory. -/
def dashInit : DashCoordState := ⟨[], []⟩

/-- handleCoordinated from the dashboard page: reject when the trade's key is
already in the seen set; otherwise record the key, prune the seen set to its
most recent 50 entries once it exceeds 100, and prepend the trade to the
buffer trimmed via `prev.slice(0, MAX_LIVE_COORDINATED - 1)`. -/
def handleCoordinated (st : DashCoordState) (data : CoordinatedTrade)
    (now : String) : DashCoordState :=
  let tradeKey := dashTradeKey data now
  if tradeKey ∈ st.seenCoordinated then st
  else
    let seen1 := tradeKey :: st.seenCoordinated
    let seen2 := if 100 < seen1.length then seen1.take 50 else seen1
    { recentCoordinated := data :: st.recentCoordinated.take (MAX_LIVE_COORDINATED - 1)
      seenCoordinated := seen2 }

/-- The `now`-independent part of a dashboard dedup key, defined for trades
with a non-empty `timestamp` or `triggeredAt` field (for those,
`getTradeTimestamp` never falls back to the current instant). -/
def dashKeyStable (trade : CoordinatedTrade) : String :=
  trade.tokenAddress ++ "-" ++
    (if trade.timestamp ≠ "" then trade.timestamp else trade.triggeredAt)

/-- A coordinated trade whose key does not depend on the arrival instant. -/
def hasStableKey (trade : CoordinatedTrade) : Prop :=
  trade.timestamp ≠ "" ∨ trade.triggeredAt ≠ ""

/-- Invariant of the dashboard coordinated mini-feed: the buffer is within
capacity, the seen memory is within its 100-entry bound and at least as long
as the buffer, and the i-th most recent buffered trade's key (when stable) is
exactly the i-th most recent seen entry. -/
def DashInv (st : DashCoordState) : Prop :=
  st.recentCoordinated.length ≤ MAX_LIVE_COORDINATED ∧
  st.recentCoordinated.length ≤ st.seenCoordinated.length ∧
  st.seenCoordinated.length ≤ 100 ∧
  ∀ i (h : i < st.recentCoordinated.length) (h2 : i < st.seenCoordinated.length),
    hasStableKey (st.recentCoordinated.get ⟨i, h⟩) →
    dashKeyStable (st.recentCoordinated.get ⟨i, h⟩) = st.seenCoordinated.get ⟨i, h2⟩

/-- Helper: a stable key agrees with the key computed at any instant. -/
theorem dashTradeKey_of_stable (trade : CoordinatedTrade) (now : String)
    (h : hasStableKey trade) : dashTradeKey trade now = dashKeyStable trade := by
  rcases h with h | h
  · simp [dashTradeKey, dashKeyStable, getTradeTimestamp, h]
  · by_cases hts : trade.timestamp = ""
    · simp [dashTradeKey, dashKeyStable, getTradeTimestamp, hts, h]
    · simp [dashTradeKey, dashKeyStable, getTradeTimestamp, hts]

/-- Helper: the initial dashboard state satisfies the invariant. -/
theorem dashInv_init : DashInv dashInit := by
  refine ⟨by simp [dashInit], by simp [dashInit], by simp [dashInit], ?_⟩
  intro i h
  simp [dashInit] at h

/-- Helper: `handleCoordinated` preserves the dashboard invariant. -/
theorem dashInv_step (st : DashCoordState) (data : CoordinatedTrade) (now : String)
    (hinv : DashInv st) : DashInv (handleCoordinated st data now) := by
  obtain ⟨hcap, hlen, hseen, hkey⟩ := hinv
  by_cases hdup : dashTradeKey data now ∈ st.seenCoordinated
  · simpa [handleCoordinated, hdup] using ⟨hcap, hlen, hseen, hkey⟩
  · simp only [handleCoordinated, if_neg hdup]
    by_cases hprune : 100 < (dashTradeKey data now :: st.seenCoordinated).length
    · -- pruned: the seen memory becomes its 50 most recent entries
      simp only [if_pos hprune]
      refine ⟨?_, ?_, ?_, ?_⟩
      · simp only [List.length_cons, List.length_take, MAX_LIVE_COORDINATED]
        omega
      · simp only [List.length_cons, List.length_take, MAX_LIVE_COORDINATED]
        simp only [List.length_cons] at hprune
        omega
      · simp only [List.length_take, List.length_cons]
        omega
      · intro i h h2 hstable
        simp only [List.length_cons, List.length_take, MAX_LIVE_COORDINATED] at h
        match i with
        | 0 =>
            exact (dashTradeKey_of_stable data now hstable).symm
        | Nat.succ j =>
            have hj : j < st.recentCoordinated.length := by
              have := List.length_take (MAX_LIVE_COORDINATED - 1) st.recentCoordinated
              omega
            have hj2 : j < st.seenCoordinated.length := by omega
            have hjk : j + 1 < 50 := by omega
            simp only [List.get_eq_getElem] at hstable ⊢
            have hbuf : (data :: List.take (MAX_LIVE_COORDINATED - 1)
                st.recentCoordinated)[j + 1] = st.recentCoordinated[j] := by
              simp only [List.getElem_cons_succ]
              exact List.getElem_take _
            rw [hbuf] at hstable ⊢
            have hsn : (List.take 50 (dashTradeKey data now :: st.seenCoordinated))[j + 1]
                = st.seenCoordinated[j] := by
              rw [List.getElem_take]
              simp only [List.getElem_cons_succ]
            rw [hsn]
            have := hkey j hj hj2
            simp only [List.get_eq_getElem] at this
            exact this hstable
    · -- not pruned: the key is simply pushed onto the seen memory
      simp only [if_neg hprune]
      refine ⟨?_, ?_, ?_, ?_⟩
      · simp only [List.length_cons, List.length_take, MAX_LIVE_COORDINATED]
        omega
      · simp only [List.length_cons, List.length_take, MAX_LIVE_COORDINATED]
        omega
      · simp only [List.length_cons] at hprune ⊢
        omega
      · intro i h h2 hstable
        match i with
        | 0 =>
            exact (dashTradeKey_of_stable data now hstable).symm
        | Nat.succ j =>
            have hj : j < st.recentCoordinated.length := by
              simp only [List.length_cons, List.length_take] at h
              omega
            have hj2 : j < st.seenCoordinated.length := by
              simp only [List.length_cons] at h2
              omega
            simp only [List.get_eq_getElem] at hstable ⊢
            have hbuf : (data :: List.take (MAX_LIVE_COORDINATED - 1)
                st.recentCoordinated)[j + 1] = st.recentCoordinated[j] := by
              simp only [List.getElem_cons_succ]
              exact List.getElem_take _
            rw [hbuf] at hstable ⊢
            simp only [List.getElem_cons_succ]
            have := hkey j hj hj2
            simp only [List.get_eq_getElem] at this
            exact this hstable

instance (trade : CoordinatedTrade) : Decidable (hasStableKey trade) := by
  unfold hasStableKey
  infer_instance

/-- Helper: the dashboard invariant holds after any sequence of admissions
(each paired with the arrival instant used for its key) from the initial
state. -/
theorem dashInv_foldl (inputs : List (CoordinatedTrade × String)) :
    ∀ st, DashInv st →
      DashInv (inputs.foldl (fun s p => handleCoordinated s p.1 p.2) st) := by
  induction inputs with
  | nil => intro st h; exact h
  | cons p ps ih =>
      intro st h
      exact ih _ (dashInv_step st p.1 p.2 h)

/-- Helper: an admission whose key is already in the seen memory leaves the
dashboard state untouched. -/
theorem handleCoordinated_of_seen (st : DashCoordState) (data : CoordinatedTrade)
    (now : String) (h : dashTradeKey data now ∈ st.seenCoordinated) :
    handleCoordinated st data now = st := by
  simp [handleCoordinated, h]

/-- C2 (amended): duplicate admissions are no-ops on buffer contents, with the
dedup keys the code actually computes.  On the live feed the coordinated key
is `(tokenAddress, triggeredAt)` and the transfer key is the non-empty
signature, exactly as the claim states.  On the dashboard coordinated
mini-feed the key is `(tokenAddress, timestamp-field falling back to
triggeredAt)`, and a candidate matching the stable key of a buffered trade is
rejected in every state reachable from the initial state. -/
theorem C2_duplicate_admission_noop (buf : List FeedItem) (t : TransferEvent)
    (d cand : CoordinatedTrade) (inputs : List (CoordinatedTrade × String))
    (now : String) :
    ((∃ e, FeedItem.coordinated e ∈ buf ∧ liveTradeKey e = liveTradeKey d) →
      addFeedItem buf (FeedItem.coordinated d) = buf) ∧
    (t.signature ≠ "" →
      (∃ e, FeedItem.transfer e ∈ buf ∧ e.signature = t.signature) →
      addFeedItem buf (FeedItem.transfer t) = buf) ∧
    ((∃ e ∈ (inputs.foldl (fun s p => handleCoordinated s p.1 p.2)
          dashInit).recentCoordinated,
        hasStableKey e ∧ dashKeyStable e = dashTradeKey cand now) →
      handleCoordinated
        (inputs.foldl (fun s p => handleCoordinated s p.1 p.2) dashInit) cand now =
      inputs.foldl (fun s p => handleCoordinated s p.1 p.2) dashInit) := by
  refine ⟨?_, ?_, ?_⟩
  · rintro ⟨e, he, hk⟩
    have hdup : isDupCoordinated buf d = true :=
      List.any_eq_true.2 ⟨FeedItem.coordinated e, he, by simp [hk]⟩
    simp only [addFeedItem]
    rw [if_pos hdup]
  · rintro hne ⟨e, he, hk⟩
    have hdup : isDupTransfer buf t = true :=
      List.any_eq_true.2 ⟨FeedItem.transfer e, he, by simp [hk]⟩
    simp only [addFeedItem]
    rw [if_pos ⟨hne, hdup⟩]
  · rintro ⟨e, he, hst, hkeq⟩
    set st := inputs.foldl (fun s p => handleCoordinated s p.1 p.2) dashInit with hstdef
    have hinv : DashInv st := dashInv_foldl inputs dashInit dashInv_init
    rcases List.mem_iff_get.1 he with ⟨n, hn⟩
    have hn2 : n.1 < st.seenCoordinated.length := lt_of_lt_of_le n.2 hinv.2.1
    have hkey := hinv.2.2.2 n.1 n.2 hn2
    rw [hn] at hkey
    have : dashTradeKey cand now ∈ st.seenCoordinated := by
      rw [← hkeq, hkey hst]
      exact List.get_mem _ _ _
    exact handleCoordinated_of_seen st cand now this

/-- C2 witness: a literal duplicate is a no-op on the live buffer, and a
dashboard candidate matching a buffered trade's key is a no-op on the
dashboard state. -/
theorem C2_duplicate_admission_noop_witness :
    addFeedItem [FeedItem.coordinated ⟨"T", "ts", 2, [], 60, "p", "ws", "we", "tr", 2⟩]
      (FeedItem.coordinated ⟨"T", "ts", 2, [], 60, "p", "ws", "we", "tr", 2⟩) =
      [FeedItem.coordinated ⟨"T", "ts", 2, [], 60, "p", "ws", "we", "tr", 2⟩] ∧
    handleCoordinated
      ([((⟨"T", "ts", 2, [], 60, "p", "ws", "we", "tr", 2⟩ : CoordinatedTrade),
         "n0")].foldl (fun s p => handleCoordinated s p.1 p.2) dashInit)
      ⟨"T", "ts", 2, [], 60, "p", "ws", "we", "tr", 2⟩ "n1" =
    [((⟨"T", "ts", 2, [], 60, "p", "ws", "we", "tr", 2⟩ : CoordinatedTrade),
      "n0")].foldl (fun s p => handleCoordinated s p.1 p.2) dashInit := by
  have h := C2_duplicate_admission_noop
    [FeedItem.coordinated ⟨"T", "ts", 2, [], 60, "p", "ws", "we", "tr", 2⟩]
    ⟨"w", "k", "1", "s", "t1", Side.BUY⟩
    ⟨"T", "ts", 2, [], 60, "p", "ws", "we", "tr", 2⟩
    ⟨"T", "ts", 2, [], 60, "p", "ws", "we", "tr", 2⟩
    [(⟨"T", "ts", 2, [], 60, "p", "ws", "we", "tr", 2⟩, "n0")] "n1"
  refine ⟨h.1 ⟨⟨"T", "ts", 2, [], 60, "p", "ws", "we", "tr", 2⟩, by decide, rfl⟩,
    h.2.2 ⟨⟨"T", "ts", 2, [], 60, "p", "ws", "we", "tr", 2⟩, by decide,
      Or.inl (by decide), by decide⟩⟩

/-- C2 counterexample: on the dashboard mini-feed two coordinated trades that
share the `(tokenAddress, triggeredAt)` pair of the claim but differ in their
`timestamp` field are BOTH admitted — the second admission is not a no-op,
because `handleCoordinated` keys on `timestamp || triggeredAt`, preferring the
`timestamp` field over the trigger instant. -/
theorem C2_duplicate_admission_noop_counterexample :
    (⟨"T", "B", 2, [], 60, "p", "", "", "t", 2⟩ : CoordinatedTrade).tokenAddress =
      (⟨"T", "A", 2, [], 60, "p", "", "", "t", 2⟩ : CoordinatedTrade).tokenAddress ∧
    (⟨"T", "B", 2, [], 60, "p", "", "", "t", 2⟩ : CoordinatedTrade).triggeredAt =
      (⟨"T", "A", 2, [], 60, "p", "", "", "t", 2⟩ : CoordinatedTrade).triggeredAt ∧
    (handleCoordinated
        (handleCoordinated dashInit ⟨"T", "A", 2, [], 60, "p", "", "", "t", 2⟩ "n1")
        ⟨"T", "B", 2, [], 60, "p", "", "", "t", 2⟩ "n2").recentCoordinated ≠
      (handleCoordinated dashInit
        ⟨"T", "A", 2, [], 60, "p", "", "", "t", 2⟩ "n1").recentCoordinated := by
  refine ⟨rfl, rfl, ?_⟩
  decide

/-- C7: the coordinated dedup-key memory is bounded: after any sequence of
admissions from the initial state its size is at most 100; and whenever an
insertion pushes it past 100 entries it is pruned to its 50 most recent
entries (half the bound), exactly as the source's
`Array.from(set).slice(-50)` does. -/
theorem C7_seen_memory_bounded_and_pruned (inputs : List (CoordinatedTrade × String))
    (st : DashCoordState) (d : CoordinatedTrade) (now : String) :
    (inputs.foldl (fun s p => handleCoordinated s p.1 p.2)
        dashInit).seenCoordinated.length ≤ 100 ∧
    (dashTradeKey d now ∉ st.seenCoordinated →
      100 < st.seenCoordinated.length + 1 →
      (handleCoordinated st d now).seenCoordinated =
        (dashTradeKey d now :: st.seenCoordinated).take 50) := by
  refine ⟨(dashInv_foldl inputs dashInit dashInv_init).2.2.1, ?_⟩
  intro hnew hbig
  simp only [handleCoordinated, if_neg hnew, List.length_cons, if_pos hbig]

/-- C7 witness: a concrete admission, and a concrete insertion into a
100-entry memory that prunes to the 50 most recent keys. -/
theorem C7_seen_memory_bounded_and_pruned_witness :
    ([((⟨"T", "ts", 2, [], 60, "p", "ws", "we", "tr", 2⟩ : CoordinatedTrade),
        "n0")].foldl (fun s p => handleCoordinated s p.1 p.2)
        dashInit).seenCoordinated.length ≤ 100 ∧
    (handleCoordinated ⟨[], List.replicate 100 "a"⟩
        ⟨"T", "ts", 2, [], 60, "p", "ws", "we", "tr", 2⟩ "n").seenCoordinated =
      (dashTradeKey ⟨"T", "ts", 2, [], 60, "p", "ws", "we", "tr", 2⟩ "n" ::
        List.replicate 100 "a").take 50 := by
  have h := C7_seen_memory_bounded_and_pruned
    [(⟨"T", "ts", 2, [], 60, "p", "ws", "we", "tr", 2⟩, "n0")]
    ⟨[], List.replicate 100 "a"⟩
    ⟨"T", "ts", 2, [], 60, "p", "ws", "we", "tr", 2⟩ "n"
  exact ⟨h.1, h.2 (by decide) (by decide)⟩

/-- SSE connection status from `useSSE.ts`. -/
inductive SSEStatus where
  | connecting
  | connected
  | disconnected
  | error
deriving DecidableEq

/-- SSE hook options after the `{ ...DEFAULT_OPTIONS, ...options }` merge:
every field present. -/
structure SSEOptions where
  enabled : Bool
  autoReconnect : Bool
  reconnectDelay : Nat
  maxReconnectAttempts : Nat
deriving DecidableEq

/-- DEFAULT_OPTIONS from `useSSE.ts`. -/
def DEFAULT_OPTIONS : SSEOptions :=
  { enabled := true, autoReconnect := true, reconnectDelay := 5000
    maxReconnectAttempts := 10 }

/-- Caller-supplied options object: absent fields are `none`, matching a key
missing from the object literal before the spread merge. -/
structure SSEOptionsInput where
  enabled : Option Bool := none
  autoReconnect : Option Bool := none
  reconnectDelay : Option Nat := none
  maxReconnectAttempts : Option Nat := none

/-- The `{ ...DEFAULT_OPTIONS, ...options }` spread merge: a key present in
the caller's object wins (even with value 0), an absent key falls back to the
default. -/
def mergeOptions (options : SSEOptionsInput) : SSEOptions :=
  { enabled := options.enabled.getD DEFAULT_OPTIONS.enabled
    autoReconnect := options.autoReconnect.getD DEFAULT_OPTIONS.autoReconnect
    reconnectDelay := options.reconnectDelay.getD DEFAULT_OPTIONS.reconnectDelay
    maxReconnectAttempts :=
      options.maxReconnectAttempts.getD DEFAULT_OPTIONS.maxReconnectAttempts }

/-- The use-site fallback `opts.maxReconnectAttempts || 10`: 0 is falsy in
JavaScript, so a zero value yields the default 10. -/
def effectiveMaxAttempts (opts : SSEOptions) : Nat :=
  if opts.maxReconnectAttempts = 0 then 10 else opts.maxReconnectAttempts

/-- The use-site fallback `opts.reconnectDelay || 5000`. -/
def effectiveReconnectDelay (opts : SSEOptions) : Nat :=
  if opts.reconnectDelay = 0 then 5000 else opts.reconnectDelay

/-- Mutable state of one SSE hook instance: connection status, the retry
counter `reconnectAttempts.current`, the pending reconnect timer
`reconnectTimeoutRef.current` (carrying its delay in ms), and whether an
`EventSource` object is currently open. -/
structure SSEConn where
  status : SSEStatus
  reconnectAttempts : Nat
  reconnectTimer : Option Nat
  eventSourceOpen : Bool
deriving DecidableEq

/-- The `eventSource.onerror` handler of `useSSE.connect`: set status to
`error`, close the connection; then, if auto-reconnect is on and the attempt
counter is below the (fallback-corrected) maximum, increment the counter and
schedule a reconnect after the delay; else if the counter has reached the
maximum, set status to `disconnected`.  Note the `else if`: with
auto-reconnect off and the counter below the maximum, neither branch runs. -/
def onErrorUseSSE (opts : SSEOptions) (s : SSEConn) : SSEConn :=
  let s1 : SSEConn := { s with status := SSEStatus.error, eventSourceOpen := false }
  let maxAttempts := effectiveMaxAttempts opts
  let reconnectDelay := effectiveReconnectDelay opts
  if opts.autoReconnect = true ∧ s.reconnectAttempts < maxAttempts then
    { s1 with reconnectAttempts := s.reconnectAttempts + 1
              reconnectTimer := some reconnectDelay }
  else if maxAttempts ≤ s.reconnectAttempts then
    { s1 with status := SSEStatus.disconnected }
  else s1

/-- The `eventSource.onerror` handler of `useTransferStream.connect` (the
`useCoordinatedStream` one is identical): same retry branch, but the `else`
always falls through to `disconnected`. -/
def onErrorTransferStream (opts : SSEOptions) (s : SSEConn) : SSEConn :=
  let s1 : SSEConn := { s with status := SSEStatus.error, eventSourceOpen := false }
  let maxAttempts := effectiveMaxAttempts opts
  let reconnectDelay := effectiveReconnectDelay opts
  if opts.autoReconnect = true ∧ s.reconnectAttempts < maxAttempts then
    { s1 with reconnectAttempts := s.reconnectAttempts + 1
              reconnectTimer := some reconnectDelay }
  else { s1 with status := SSEStatus.disconnected }

/-- The `disconnect` callback of `useSSE`: clear any pending reconnect timer,
close the connection if open, reset the attempt counter to 0, set status to
`disconnected`. -/
def disconnect (_s : SSEConn) : SSEConn :=
  { status := SSEStatus.disconnected, reconnectAttempts := 0
    reconnectTimer := none, eventSourceOpen := false }

/-- C3 (amended): on a connection error both connection managers set status to
`error` and close the connection; if auto-reconnect is on and the counter is
below the effective maximum (default 10), both increment the counter and
schedule a reconnect after the effective delay (default 5000 ms); if the
counter has reached the maximum, both end at `disconnected` with no new timer;
but when auto-reconnect is DISABLED with the counter below the maximum, the
combined-stream manager (`useSSE`) stays at `error` (its `else if` does not
fire) while the per-kind manager (`useTransferStream`) ends at
`disconnected` — in neither case is a new timer scheduled. -/
theorem C3_error_reconnect_policy (opts : SSEOptions) (s : SSEConn) :
    ((onErrorUseSSE opts s).eventSourceOpen = false ∧
     (onErrorTransferStream opts s).eventSourceOpen = false) ∧
    (opts.autoReconnect = true → s.reconnectAttempts < effectiveMaxAttempts opts →
      onErrorUseSSE opts s =
        { status := SSEStatus.error, reconnectAttempts := s.reconnectAttempts + 1
          reconnectTimer := some (effectiveReconnectDelay opts)
          eventSourceOpen := false } ∧
      onErrorTransferStream opts s =
        { status := SSEStatus.error, reconnectAttempts := s.reconnectAttempts + 1
          reconnectTimer := some (effectiveReconnectDelay opts)
          eventSourceOpen := false }) ∧
    (effectiveMaxAttempts opts ≤ s.reconnectAttempts →
      onErrorUseSSE opts s =
        { status := SSEStatus.disconnected
          reconnectAttempts := s.reconnectAttempts
          reconnectTimer := s.reconnectTimer, eventSourceOpen := false } ∧
      onErrorTransferStream opts s =
        { status := SSEStatus.disconnected
          reconnectAttempts := s.reconnectAttempts
          reconnectTimer := s.reconnectTimer, eventSourceOpen := false }) ∧
    (opts.autoReconnect = false → s.reconnectAttempts < effectiveMaxAttempts opts →
      onErrorUseSSE opts s =
        { status := SSEStatus.error, reconnectAttempts := s.reconnectAttempts
          reconnectTimer := s.reconnectTimer, eventSourceOpen := false } ∧
      onErrorTransferStream opts s =
        { status := SSEStatus.disconnected
          reconnectAttempts := s.reconnectAttempts
          reconnectTimer := s.reconnectTimer, eventSourceOpen := false }) := by
  refine ⟨?_, ?_, ?_, ?_⟩
  · constructor
    · simp only [onErrorUseSSE]
      split
      · rfl
      · split
        · rfl
        · rfl
    · simp only [onErrorTransferStream]
      split
      · rfl
      · rfl
  · intro hA hlt
    constructor
    · simp only [onErrorUseSSE]
      rw [if_pos ⟨hA, hlt⟩]
    · simp only [onErrorTransferStream]
      rw [if_pos ⟨hA, hlt⟩]
  · intro hle
    have hneg : ¬ (opts.autoReconnect = true ∧
        s.reconnectAttempts < effectiveMaxAttempts opts) :=
      fun hc => absurd hc.2 (Nat.not_lt.2 hle)
    constructor
    · simp only [onErrorUseSSE]
      rw [if_neg hneg, if_pos hle]
    · simp only [onErrorTransferStream]
      rw [if_neg hneg]
  · intro hA hlt
    have hneg : ¬ (opts.autoReconnect = true ∧
        s.reconnectAttempts < effectiveMaxAttempts opts) :=
      fun hc => by rw [hA] at hc; exact Bool.false_ne_true hc.1
    constructor
    · simp only [onErrorUseSSE]
      rw [if_neg hneg, if_neg (Nat.not_le.2 hlt)]
    · simp only [onErrorTransferStream]
      rw [if_neg hneg]

/-- C3 witness: with max = 2 the retry branch fires at counter 1, the third
error lands at `disconnected` with no timer, and with auto-reconnect disabled
the per-kind manager drops straight to `disconnected`. -/
theorem C3_error_reconnect_policy_witness :
    onErrorUseSSE ⟨true, true, 5000, 2⟩ ⟨SSEStatus.connecting, 1, none, true⟩ =
      ⟨SSEStatus.error, 2, some 5000, false⟩ ∧
    onErrorUseSSE ⟨true, true, 5000, 2⟩ ⟨SSEStatus.connecting, 2, none, true⟩ =
      ⟨SSEStatus.disconnected, 2, none, false⟩ ∧
    onErrorTransferStream ⟨true, false, 5000, 10⟩ ⟨SSEStatus.connected, 0, none, true⟩ =
      ⟨SSEStatus.disconnected, 0, none, false⟩ :=
  ⟨((C3_error_reconnect_policy ⟨true, true, 5000, 2⟩
      ⟨SSEStatus.connecting, 1, none, true⟩).2.1 rfl (by decide)).1.trans (by decide),
   ((C3_error_reconnect_policy ⟨true, true, 5000, 2⟩
      ⟨SSEStatus.connecting, 2, none, true⟩).2.2.1 (by decide)).1.trans (by decide),
   ((C3_error_reconnect_policy ⟨true, false, 5000, 10⟩
      ⟨SSEStatus.connected, 0, none, true⟩).2.2.2 rfl (by decide)).2.trans (by decide)⟩

/-- C3 counterexample: in the combined-stream manager, a connection error with
auto-reconnect disabled and the counter below the maximum leaves the status at
`error`, NOT `disconnected` as the claim requires (no timer is scheduled
either way). -/
theorem C3_error_reconnect_policy_counterexample :
    (onErrorUseSSE ⟨true, false, 5000, 10⟩
        ⟨SSEStatus.connected, 0, none, true⟩).status ≠ SSEStatus.disconnected ∧
    (onErrorUseSSE ⟨true, false, 5000, 10⟩
        ⟨SSEStatus.connected, 0, none, true⟩).status = SSEStatus.error ∧
    (onErrorUseSSE ⟨true, false, 5000, 10⟩
        ⟨SSEStatus.connected, 0, none, true⟩).reconnectTimer = none := by
  decide

/-- C8: `disconnect` always yields the fully reset state — status
`disconnected`, counter 0, no pending timer, connection closed — and is
idempotent: a second call from the disconnected state is a no-op. -/
theorem C8_disconnect_idempotent (s : SSEConn) :
    disconnect s =
      { status := SSEStatus.disconnected, reconnectAttempts := 0
        reconnectTimer := none, eventSourceOpen := false } ∧
    disconnect (disconnect s) = disconnect s :=
  ⟨rfl, rfl⟩

/-- C10: a caller-supplied 0 for `maxReconnectAttempts` or `reconnectDelay`
survives the option merge but is neutralised by the `|| 10` / `|| 5000`
fallbacks at the use site: the error handler behaves exactly as with the
defaults, so 0 can neither disable reconnection nor give a zero delay. -/
theorem C10_zero_options_behave_as_defaults (i : SSEOptionsInput) (s : SSEConn) :
    onErrorUseSSE (mergeOptions
        { i with maxReconnectAttempts := some 0, reconnectDelay := some 0 }) s =
      onErrorUseSSE (mergeOptions
        { i with maxReconnectAttempts := none, reconnectDelay := none }) s ∧
    onErrorUseSSE (mergeOptions { i with maxReconnectAttempts := some 0 }) s =
      onErrorUseSSE (mergeOptions { i with maxReconnectAttempts := some 10 }) s ∧
    onErrorUseSSE (mergeOptions { i with reconnectDelay := some 0 }) s =
      onErrorUseSSE (mergeOptions { i with reconnectDelay := some 5000 }) s := by
  refine ⟨?_, ?_, ?_⟩ <;>
    simp [onErrorUseSSE, mergeOptions, effectiveMaxAttempts,
      effectiveReconnectDelay, DEFAULT_OPTIONS]

/-- Observable state touched by the frame listeners of `useSSE.connect`:
connection status and the `lastEvent` instant. -/
structure StreamState where
  status : SSEStatus
  lastEvent : Option String
deriving DecidableEq

/-- The "transfers" named-event listener of `useSSE.connect`.  `JSON.parse` is
a platform primitive, abstracted as the `parse` parameter; `none` models a
thrown `SyntaxError`, which the listener catches and logs.  On success it
records the arrival instant and hands each array element to the `onTransfer`
callback (returned here as the list of delivered events, in array order). -/
def onTransfersFrame (parse : String → Option (List TransferEvent))
    (now : String) (payload : String) (s : StreamState) :
    StreamState × List TransferEvent :=
  match parse payload with
  | none => (s, [])
  | some arr => ({ s with lastEvent := some now }, arr)

/-- The "coordinated" named-event listener of `useSSE.connect`: parses a
single object and delivers it to `onCoordinated`; a parse failure is caught
and logged. -/
def onCoordinatedFrame (parse : String → Option CoordinatedTrade)
    (now : String) (payload : String) (s : StreamState) :
    StreamState × List CoordinatedTrade :=
  match parse payload with
  | none => (s, [])
  | some data => ({ s with lastEvent := some now }, [data])

/-- C4: a frame whose payload fails to parse is dropped with only a logged
warning: the listener state (status, lastEvent) is unchanged, no callback is
invoked for the frame, and consequently the live-feed buffer downstream of
the callbacks is unchanged; no exception escapes (the handlers are total
functions). -/
theorem C4_parse_failure_drops_frame
    (parseT : String → Option (List TransferEvent))
    (parseC : String → Option CoordinatedTrade)
    (now payload : String) (s : StreamState) (buf : List FeedItem)
    (hT : parseT payload = none) (hC : parseC payload = none) :
    onTransfersFrame parseT now payload s = (s, []) ∧
    onCoordinatedFrame parseC now payload s = (s, []) ∧
    (onTransfersFrame parseT now payload s).2.foldl
      (fun b t => addFeedItem b (FeedItem.transfer t)) buf = buf ∧
    (onTransfersFrame parseT now payload s).1.status = s.status := by
  refine ⟨?_, ?_, ?_, ?_⟩ <;> simp [onTransfersFrame, onCoordinatedFrame, hT, hC]

/-- C4 witness: the literal payload "not json" under a parse function that
rejects it leaves a connected stream connected and an empty buffer empty. -/
theorem C4_parse_failure_drops_frame_witness :
    onTransfersFrame (fun _ => none) "t0" "not json"
      ⟨SSEStatus.connected, none⟩ = (⟨SSEStatus.connected, none⟩, []) ∧
    onCoordinatedFrame (fun _ => none) "t0" "not json"
      ⟨SSEStatus.connected, none⟩ = (⟨SSEStatus.connected, none⟩, []) ∧
    (onTransfersFrame (fun _ => none) "t0" "not json"
      ⟨SSEStatus.connected, none⟩).1.status = SSEStatus.connected := by
  have h := C4_parse_failure_drops_frame (fun _ => none) (fun _ => none)
    "t0" "not json" ⟨SSEStatus.connected, none⟩ [] rfl rfl
  exact ⟨h.1, h.2.1, h.2.2.2⟩

/-- The union of the buffer state owned by the live-feed page and the
dashboard page, for stating independence: each admission function is the
corresponding page handler acting on its own component. -/
structure AppBuffers where
  feedItems : List FeedItem
  recentTransfers : List TransferEvent
  dash : DashCoordState
deriving DecidableEq

/-- Live-page admission lifted to the combined state. -/
def appAddFeedItem (st : AppBuffers) (item : FeedItem) : AppBuffers :=
  { st with feedItems := addFeedItem st.feedItems item }

/-- Dashboard transfer admission lifted to the combined state. -/
def appHandleTransfer (st : AppBuffers) (data : TransferEvent) : AppBuffers :=
  { st with recentTransfers := handleTransfer st.recentTransfers data }

/-- Dashboard coordinated admission lifted to the combined state. -/
def appHandleCoordinated (st : AppBuffers) (data : CoordinatedTrade)
    (now : String) : AppBuffers :=
  { st with dash := handleCoordinated st.dash data now }

/-- C6: capacities are fixed constants per buffer (500 combined feed, 50
transfer mini-feed, 20 coordinated mini-feed) and admissions never exceed
them; and the buffers and their dedup memories are independent: admitting
into any one buffer leaves every other buffer's contents and dedup keys
untouched.  (The live feed deduplicates against its own contents; the
dashboard coordinated feed against its own `seenCoordinated` memory; the
dashboard transfer feed applies no dedup.) -/
theorem C6_buffers_independent_and_capped (st : AppBuffers) (item : FeedItem)
    (t : TransferEvent) (d : CoordinatedTrade) (now : String) :
    ((appAddFeedItem st item).recentTransfers = st.recentTransfers ∧
     (appAddFeedItem st item).dash = st.dash) ∧
    ((appHandleTransfer st t).feedItems = st.feedItems ∧
     (appHandleTransfer st t).dash = st.dash) ∧
    ((appHandleCoordinated st d now).feedItems = st.feedItems ∧
     (appHandleCoordinated st d now).recentTransfers = st.recentTransfers) ∧
    (st.feedItems.length ≤ MAX_FEED_ITEMS →
      (appAddFeedItem st item).feedItems.length ≤ MAX_FEED_ITEMS) ∧
    (appHandleTransfer st t).recentTransfers.length ≤ MAX_LIVE_TRANSFERS ∧
    (st.dash.recentCoordinated.length ≤ MAX_LIVE_COORDINATED →
      (appHandleCoordinated st d now).dash.recentCoordinated.length ≤
        MAX_LIVE_COORDINATED) := by
  refine ⟨⟨rfl, rfl⟩, ⟨rfl, rfl⟩, ⟨rfl, rfl⟩, ?_, ?_, ?_⟩
  · intro h
    show (addFeedItem st.feedItems item).length ≤ MAX_FEED_ITEMS
    cases item <;> simp only [addFeedItem] <;> split
    all_goals first
      | exact h
      | simp [List.length_take]
  · show (handleTransfer st.recentTransfers t).length ≤ MAX_LIVE_TRANSFERS
    simp only [handleTransfer, List.length_cons, List.length_take,
      MAX_LIVE_TRANSFERS]
    omega
  · intro h
    show (handleCoordinated st.dash d now).recentCoordinated.length ≤
      MAX_LIVE_COORDINATED
    by_cases hdup : dashTradeKey d now ∈ st.dash.seenCoordinated
    · simpa [handleCoordinated, hdup] using h
    · simp only [handleCoordinated, if_neg hdup, List.length_cons,
        List.length_take, MAX_LIVE_COORDINATED]
      omega

/-- C6 witness: a concrete admission into each buffer leaves the other two
components (and their dedup memories) untouched and within capacity. -/
theorem C6_buffers_independent_and_capped_witness :
    (appAddFeedItem ⟨[], [], dashInit⟩
      (FeedItem.transfer ⟨"w", "k", "1", "a", "t1", Side.BUY⟩)).recentTransfers = [] ∧
    (appAddFeedItem ⟨[], [], dashInit⟩
      (FeedItem.transfer ⟨"w", "k", "1", "a", "t1", Side.BUY⟩)).dash = dashInit ∧
    (appAddFeedItem ⟨[], [], dashInit⟩
      (FeedItem.transfer ⟨"w", "k", "1", "a", "t1", Side.BUY⟩)).feedItems.length ≤
      MAX_FEED_ITEMS ∧
    (appHandleCoordinated ⟨[], [], dashInit⟩
      ⟨"T", "ts", 2, [], 60, "p", "ws", "we", "tr", 2⟩
      "n").dash.recentCoordinated.length ≤ MAX_LIVE_COORDINATED := by
  have h := C6_buffers_independent_and_capped ⟨[], [], dashInit⟩
    (FeedItem.transfer ⟨"w", "k", "1", "a", "t1", Side.BUY⟩)
    ⟨"w", "k", "1", "a", "t1", Side.BUY⟩
    ⟨"T", "ts", 2, [], 60, "p", "ws", "we", "tr", 2⟩ "n"
  exact ⟨h.1.1, h.1.2, h.2.2.2.1 (by decide), h.2.2.2.2.2 (by decide)⟩

end WalletTracker
